import Mathlib

/-!
Shallow embedding of the request-lifecycle core of the esi_requests
repository (sessions.py, checker.py, data/etag_cache.py), with theorems
checking the natural-language specification against the code.

Machine conventions: Python dict lookups become association-list lookups;
Python None becomes Option.none; Python exceptions become Except.error;
the asyncio fan-out/fan-in of Session.issue is modelled by an explicit
completion order (a permutation of task indices) writing task results into
slots keyed by task index.
-/

/-- Modelled from the spec: models.py is not under src/. Fields follow the
data model of the spec (LogicalRequest / PreparedRequest) and the uses in
sessions.py and checker.py: endpoint template, method, resolved url, the
structured-parameter set `params`, the free-form keyword set `kwargs`
(both may bind a name to a Python-None value, hence Option Int values),
headers, and the boolean discriminator `prepared` standing for the
isinstance(request, PreparedESIRequest) test used by Session.issue. -/
structure ESIRequest where
  endpoint : String := ""
  method : String := ""
  url : String := ""
  params : List (String × Option Int) := []
  kwargs : List (String × Option Int) := []
  headers : List (String × String) := []
  prepared : Bool := false
deriving DecidableEq

instance : Inhabited ESIRequest := ⟨{}⟩

/-- The transport-level response consumed by Session.build_response
(status, headers, reason, resolved url, body text), as produced by
aiohttp in Session.send. -/
structure ClientResponse where
  status : Nat := 0
  headers : List (String × String) := []
  reason : String := ""
  url : String := ""
  text : String := ""
deriving DecidableEq

/-- Modelled from the spec where models.py is missing: the ESIResponse
object of the repository, with the fields Session.build_response assigns
(status, headers, reason, url, request_info back-reference, expires drawn
from the headers, body text). A bare ESIResponse() is the record of
defaults. -/
structure ESIResponse where
  status : Nat := 0
  headers : List (String × String) := []
  reason : String := ""
  url : String := ""
  request_info : Option ESIRequest := none
  expires : Option String := none
  text : String := ""
deriving DecidableEq

/-- Modelled from the spec: models.py is not under src/; the spec defines
the ok predicate of a Response as "status is 2xx". -/
def ESIResponse.ok (r : ESIResponse) : Bool :=
  200 ≤ r.status && r.status < 300

/-- The _ETagCacheEntry dataclass of data/etag_cache.py: an entity tag and
the last cached response for a URL. -/
structure ETagCacheEntry where
  etag : String
  response : ESIResponse
deriving DecidableEq

/-- The expires argument Session.cache_response passes to the ETag cache:
the Expires header when present, else the integer default 24*3600. -/
inductive ExpiresValue where
  | header (s : String)
  | defaultSeconds (n : Nat)
deriving DecidableEq

/-- Observable side effects of dispatching one request: the network send,
a conditional-cache write, or returning a synthesized response. -/
inductive Effect where
  | sent (url : String)
  | cacheWrite (url : String) (etag : String) (expires : ExpiresValue)
  | synthesized
deriving DecidableEq

/-- The errors a dispatched task can raise: the NotImplementedError
Session.issue_one_request raises on a 304 status with no
conditional-cache entry (the spec calls it
UnresolvedConditionalCacheMiss), and the ValueError Session.send raises
when handed a logical (unprepared) request (the spec's MisuseError for an
un-prepared request passed to send). -/
inductive DispatchError where
  | unresolvedConditionalCacheMiss
  | valueErrorUnpreparedSend
deriving DecidableEq

/-- Errors Session.issue can surface: requests[0] on an empty list
(IndexError), the isinstance misuse check (ValueError), and a dispatched
task having raised. gatherIncomplete marks a completion order that is not
a real schedule (it never occurs for a permutation of the task indices). -/
inductive IssueError where
  | indexError
  | valueError
  | gatherIncomplete
  | dispatchFailed (e : DispatchError)
deriving DecidableEq

/-- Result of Session.issue_one_request together with its effect trace. -/
structure DispatchOutcome where
  result : Except DispatchError ESIResponse
  effects : List Effect

/-- FakeResponseGenerator.ready of checker.py: returns False for every
request. -/
def FakeResponseGenerator.ready (_ : ESIRequest) : Bool := false

/-- FakeResponseGenerator.generate of checker.py: a bare ESIResponse(). -/
def FakeResponseGenerator.generate (_ : ESIRequest) : ESIResponse := {}

/-- Session.build_response of sessions.py: copies status, headers, reason
and url from the transport response, sets the request back-reference,
reads expires from the Expires header, and takes the body text. -/
def build_response (request : ESIRequest) (r : ClientResponse) : ESIResponse :=
  { status := r.status
    headers := r.headers
    reason := r.reason
    url := r.url
    request_info := some request
    expires := r.headers.lookup "Expires"
    text := r.text }

/-- Session.cache_response of sessions.py, as the cache-write effect it
performs: etag from the ETag header with default sentinel "*", expires
from the Expires header with default 24*3600 seconds, keyed by the
response url. -/
def cache_response (resp : ESIResponse) : Effect :=
  Effect.cacheWrite resp.url ((resp.headers.lookup "ETag").getD "*")
    (match resp.headers.lookup "Expires" with
     | some s => ExpiresValue.header s
     | none => ExpiresValue.defaultSeconds (24 * 3600))

/-- Session.issue_one_request of sessions.py. `valid` is the verdict the
request checker returned for this request, `cache` the ETag cache
contents, `r` the transport response the send would produce. Control
flow as in the source: if the verdict is invalid and the fallback
generator is ready, synthesize; otherwise send; on a 304 status consult
the cache and raise on a miss; otherwise build the response and cache it
exactly when it is ok. -/
def issue_one_request (valid : Bool) (cache : String → Option ETagCacheEntry)
    (r : ClientResponse) (request : ESIRequest) : DispatchOutcome :=
  if !valid && FakeResponseGenerator.ready request then
    { result := Except.ok (FakeResponseGenerator.generate request)
      effects := [Effect.synthesized] }
  else if r.status = 304 then
    match cache request.url with
    | none =>
      { result := Except.error DispatchError.unresolvedConditionalCacheMiss
        effects := [Effect.sent request.url] }
    | some line =>
      { result := Except.ok line.response
        effects := [Effect.sent request.url] }
  else
    let resp := build_response request r
    if resp.ok then
      { result := Except.ok resp
        effects := [Effect.sent request.url, cache_response resp] }
    else
      { result := Except.ok resp
        effects := [Effect.sent request.url] }

/-- Session.send of sessions.py: the isinstance(request, ESIRequest)
guard raises ValueError for a logical (unprepared) request before any
network I/O; for a prepared request the transport produces its
response. -/
def send (net : ESIRequest → ClientResponse) (request : ESIRequest) :
    Except DispatchError ClientResponse :=
  if request.prepared = false then Except.error DispatchError.valueErrorUnpreparedSend
  else Except.ok (net request)

/-- The per-task computation of Session.issue composed with Session.send:
the checker verdict and the fallback-generator test come first, as in
issue_one_request; then the send runs, raising the misuse ValueError for
an unprepared request with no network effect, and a transported response
continues through the 304/build/cache logic of issue_one_request (whose
repeated generator test is identically false, so the delegation after a
successful send is exact). -/
def issue_one_request_send (valid : Bool) (cache : String → Option ETagCacheEntry)
    (net : ESIRequest → ClientResponse) (request : ESIRequest) : DispatchOutcome :=
  if !valid && FakeResponseGenerator.ready request then
    { result := Except.ok (FakeResponseGenerator.generate request)
      effects := [Effect.synthesized] }
  else
    match send net request with
    | Except.error e => { result := Except.error e, effects := [] }
    | Except.ok r => issue_one_request valid cache r request

/-- The result of the i-th task spawned by Session.issue: the dispatch of
the i-th input request (out-of-range indices read a default request; they
never occur for a real schedule). -/
def taskResult (dispatch : ESIRequest → DispatchOutcome) (requests : List ESIRequest)
    (i : Nat) : Except DispatchError ESIResponse :=
  (dispatch (requests.getD i {})).result

/-- The concurrent execution of the spawned tasks: the completion order
lists task indices in the order their sends complete; each completion
writes that task's result into the slot keyed by its index. -/
def fillSlots (dispatch : ESIRequest → DispatchOutcome) (requests : List ESIRequest) :
    List Nat → List (Option (Except DispatchError ESIResponse)) →
    List (Option (Except DispatchError ESIResponse))
  | [], slots => slots
  | i :: rest, slots =>
    fillSlots dispatch requests rest (slots.set i (some (taskResult dispatch requests i)))

/-- The fan-in barrier of gather: all slots must be filled. -/
def collectSlots {α : Type} : List (Option α) → Option (List α)
  | [] => some []
  | none :: _ => none
  | some a :: rest => (collectSlots rest).map (fun l => a :: l)

/-- Reading task.result() for every task in original task order: a raised
exception in any task propagates out of the gather. -/
def gatherResults : List (Except DispatchError ESIResponse) →
    Except IssueError (List ESIResponse)
  | [] => Except.ok []
  | Except.error e :: _ => Except.error (IssueError.dispatchFailed e)
  | Except.ok r :: rest => (gatherResults rest).map (fun l => r :: l)

/-- Session.issue of sessions.py: indexing requests[0] on an empty list
raises IndexError; only the first element is isinstance-checked against
PreparedESIRequest (ValueError on failure); then all requests are
dispatched concurrently, completions arriving in the given order, and the
results are read back in original task order. -/
def issue (dispatch : ESIRequest → DispatchOutcome) (order : List Nat) :
    List ESIRequest → Except IssueError (List ESIResponse)
  | [] => Except.error IssueError.indexError
  | r0 :: rest =>
    if r0.prepared = false then Except.error IssueError.valueError
    else
      let requests := r0 :: rest
      let slots := fillSlots dispatch requests order (List.replicate requests.length none)
      match collectSlots slots with
      | none => Except.error IssueError.gatherIncomplete
      | some results => gatherResults results

/-- The errors the request checker can raise in strict mode
(exceptions.py is not under src/; the constructors mirror
EndpointDownError(endpoint) and InvalidRequestError(param, value) as
raised in checker.py). -/
inductive CheckError where
  | endpointDown (endpoint : String)
  | invalidRequest (param : String) (value : Option Int)
deriving DecidableEq

/-- The observable outcome of one run of the request checker: the value
returned (or the error raised in strict mode), the blocking error the run
assigned internally, whether and with what argument the type_id checker
was invoked, and whether the blocked-request warning was logged. -/
structure CheckReport where
  result : Except CheckError Bool
  blockError : Option CheckError
  typeIdCalled : Option (Option Int)
  logged : Bool

/-- The type_id resolution of ESIRequestChecker.__check_request: the
free-form keyword set is consulted first, then the structured-parameter
set, else Python None. -/
def resolve_type_id (request : ESIRequest) : Option Int :=
  match request.kwargs.lookup "type_id" with
  | some v => v
  | none =>
    match request.params.lookup "type_id" with
    | some v => v
    | none => none

/-- ESIRequestChecker.__check_request of checker.py. `endpoints_enabled`
is the endpoint checker's enabled flag, `endpointHealthy` the verdict the
endpoint checker returns per endpoint, `metadata_params` the endpoint's
declared parameters as (name, required) pairs (modelled from the spec:
metadata.py is not under src/; the spec gives Parameters(endpoint) ->
name -> required flag), and `checkTypeId` the verdict check_type_id
returns per resolved argument. Control flow as in the source: endpoint
status first, then the type_id check guarded by the running validity,
then logging and the strict/non-strict exit. -/
def check_request (endpoints_enabled : Bool) (endpointHealthy : String → Bool)
    (metadata_params : List (String × Bool)) (checkTypeId : Option Int → Bool)
    (raise_flag : Bool) (request : ESIRequest) : CheckReport :=
  let (valid1, error1) :=
    if endpoints_enabled then
      let v := endpointHealthy request.endpoint
      (v, if v then (none : Option CheckError)
          else some (CheckError.endpointDown request.endpoint))
    else (true, none)
  let (valid2, error2, called) :=
    if valid1 then
      let type_id := resolve_type_id request
      let (v, called) :=
        match metadata_params.lookup "type_id" with
        | some required =>
          if type_id.isNone && !required then (true, (none : Option (Option Int)))
          else (checkTypeId type_id, some type_id)
        | none => (valid1, none)
      if v then (v, error1, called)
      else (v, some (CheckError.invalidRequest "type_id" type_id), called)
    else (valid1, error1, none)
  if valid2 = false then
    { result :=
        match raise_flag, error2 with
        | true, some e => Except.error e
        | _, _ => Except.ok raise_flag
      blockError := error2
      typeIdCalled := called
      logged := true }
  else
    { result := Except.ok valid2
      blockError := error2
      typeIdCalled := called
      logged := false }

/-- ESIRequestChecker.__call__ of checker.py: when the checker is
disabled it returns True without running any check; otherwise it stores
the raise flag and runs the check sequence. -/
def checker_call (enabled : Bool) (endpoints_enabled : Bool)
    (endpointHealthy : String → Bool) (metadata_params : List (String × Bool))
    (checkTypeId : Option Int → Bool) (raise_flag : Bool)
    (request : ESIRequest) : CheckReport :=
  if enabled = false then
    { result := Except.ok true, blockError := none, typeIdCalled := none, logged := false }
  else
    check_request endpoints_enabled endpointHealthy metadata_params checkTypeId
      raise_flag request

/-- The retry loop of ESIRequestChecker.check_type_id, fuel-indexed. The
i-th HTTP attempt observes status `st i` and payload published-field
`pub i` (none for an absent field, Python None). State follows the
source: the loop runs while not success and attempts > 0; a 502 status
decrements attempts and retries without reading the body; any other
status reads the body, sets success only when the status is 200, and
stores the published field in valid. Returns none when the loop has not
exited within the given fuel, else the final valid. -/
def checkLoop (st : Nat → Nat) (pub : Nat → Option Bool) (fuel i : Nat)
    (success : Bool) (attempts : Nat) (valid : Option Bool) : Option (Option Bool) :=
  if success = true ∨ attempts = 0 then some valid
  else
    match fuel with
    | 0 => none
    | fuel' + 1 =>
      if st i = 502 then checkLoop st pub fuel' (i + 1) success (attempts - 1) valid
      else checkLoop st pub fuel' (i + 1) (decide (st i = 200)) attempts (pub i)

/-- ESIRequestChecker.check_type_id of checker.py. `invTypes` is the
static reference dataset as (typeID, published) rows (the bulk CSV is an
external collaborator per the spec). A type_id absent from the dataset
(or a Python-None type_id) is invalid with no network call; a present but
unpublished type_id is invalid with no network call; otherwise the
confirming remote lookup runs with attempts = 3. Returns none when the
remote loop does not terminate within the fuel, else the final Python
truthiness value of valid (none standing for Python None). -/
def check_type_id (invTypes : List (Int × Bool)) (st : Nat → Nat)
    (pub : Nat → Option Bool) (fuel : Nat) (type_id : Option Int) :
    Option (Option Bool) :=
  let memberValid : Bool :=
    match type_id with
    | none => false
    | some t => (invTypes.lookup t).isSome
  if memberValid = false then some (some false)
  else
    let publishedValid : Bool :=
      match type_id with
      | none => false
      | some t => (invTypes.lookup t).getD false
    if publishedValid = false then some (some false)
    else checkLoop st pub fuel 0 false 3 (some true)

/-- One entry of the remote status.json document: a route and its
qualitative status string. -/
structure StatusEntry where
  route : String
  status : String
deriving DecidableEq

/-- ESIEndpointChecker._parse_status_json of checker.py: route mapped to
(status equals the green sentinel). -/
def parse_status_json (status : List StatusEntry) : List (String × Bool) :=
  status.map fun entry => (entry.route, entry.status == "green")

/-- ESIEndpointChecker.fd_expired of checker.py, verbatim over the
observables it reads: the parsed in-process copy, whether the local file
exists, its modification time and the current time (seconds). The source
computes getmtime(fd_path) - time() > 60. -/
def fd_expired (status_parsed : Option (List (String × Bool))) (fileExists : Bool)
    (mtime now : Int) : Bool :=
  (status_parsed.isNone || (status_parsed.getD []).isEmpty) ||
    (fileExists && decide (mtime - now > 60))

/-- The in-process state of ESIEndpointChecker: the parsed copy of
status.json (none before any load). -/
structure EndpointCheckerState where
  status_parsed : Option (List (String × Bool))
deriving DecidableEq

/-- ESIEndpointChecker.__call__ of checker.py. `fetch` is the outcome of
requests.get plus resp.json() (an error models the raised exception).
Returns the health verdict (or the propagated exception), the state after
the call, and whether a remote fetch occurred. When the copy is not
expired the verdict is read from the current copy with default False for
unknown routes and no fetch occurs; when it is expired the fetch runs,
a failure propagates leaving the state unchanged, and a success replaces
the parsed copy wholesale. -/
def endpoint_checker_call (stt : EndpointCheckerState) (fileExists : Bool)
    (mtime now : Int) (fetch : Except String (List StatusEntry))
    (endpoint : String) : Except String Bool × EndpointCheckerState × Bool :=
  if fd_expired stt.status_parsed fileExists mtime now then
    match fetch with
    | Except.error e => (Except.error e, stt, true)
    | Except.ok status =>
      let parsed := parse_status_json status
      (Except.ok (((parsed.lookup endpoint)).getD false), ⟨some parsed⟩, true)
  else
    (Except.ok (((stt.status_parsed.getD []).lookup endpoint).getD false), stt, false)

/-- The number of conditional-cache writes for a given url in an effect
trace. -/
def countCacheWrites (effects : List Effect) (url : String) : Nat :=
  (effects.filter fun e =>
    match e with
    | Effect.cacheWrite u _ _ => u == url
    | _ => false).length

theorem fillSlots_length (d : ESIRequest → DispatchOutcome) (reqs : List ESIRequest) :
    ∀ (order : List Nat) (slots : List (Option (Except DispatchError ESIResponse))),
      (fillSlots d reqs order slots).length = slots.length
  | [], _ => rfl
  | i :: rest, slots => by
    rw [fillSlots, fillSlots_length d reqs rest, List.length_set]

theorem fillSlots_getElem? (d : ESIRequest → DispatchOutcome) (reqs : List ESIRequest) :
    ∀ (order : List Nat) (slots : List (Option (Except DispatchError ESIResponse))) (i : Nat),
      (fillSlots d reqs order slots)[i]? =
        if i ∈ order ∧ i < slots.length then some (some (taskResult d reqs i))
        else slots[i]?
  | [], slots, i => by simp [fillSlots]
  | j :: rest, slots, i => by
    rw [fillSlots, fillSlots_getElem? d reqs rest, List.length_set, List.getElem?_set]
    have hnone : ¬ i < slots.length → slots[i]? = none :=
      fun h => List.getElem?_eq_none (by omega)
    by_cases hij : j = i <;> by_cases hmem : i ∈ rest <;>
      by_cases hlen : i < slots.length <;>
      simp_all [List.mem_cons]
    all_goals split_ifs <;> first
      | rfl
      | omega
      | simp_all [List.getElem?_eq_none]

theorem collectSlots_map_some {α : Type} : ∀ (l : List α), collectSlots (l.map some) = some l
  | [] => rfl
  | a :: rest => by
    rw [List.map_cons, collectSlots, collectSlots_map_some rest]
    rfl

theorem gatherResults_map_ok : ∀ (l : List ESIResponse),
    gatherResults (l.map Except.ok) = Except.ok l
  | [] => rfl
  | r :: rest => by
    rw [List.map_cons, gatherResults, gatherResults_map_ok rest]
    rfl

theorem issue_perm_slots (dispatch : ESIRequest → DispatchOutcome)
    (reqs : List ESIRequest) (order : List Nat)
    (hperm : order.Perm (List.range reqs.length)) :
    fillSlots dispatch reqs order (List.replicate reqs.length none) =
      ((List.range reqs.length).map (taskResult dispatch reqs)).map some := by
  apply List.ext_getElem?
  intro i
  rw [fillSlots_getElem?, List.getElem?_map, List.getElem?_map]
  by_cases hi : i < reqs.length
  · have hmem : i ∈ order := hperm.mem_iff.mpr (List.mem_range.mpr hi)
    rw [List.getElem?_range hi]
    simp [hmem, hi]
  · have hmemn : i ∉ order := fun h => hi (List.mem_range.mp (hperm.mem_iff.mp h))
    have hr : (List.range reqs.length)[i]? = none :=
      List.getElem?_eq_none (by simp only [List.length_range]; omega)
    simp [hmemn, hi, hr]
    omega

/-- C1 (amended): for every nonempty list of prepared requests each of
whose dispatches completes with a response, Session.issue returns the ok
list of exactly those responses, one per input request, the i-th response
being the dispatch of the i-th input request, and this for every
completion order of the concurrent sends (any permutation of the task
indices, in particular the reversed one). -/
theorem c1_issue_order_preserving (dispatch : ESIRequest → DispatchOutcome)
    (f : ESIRequest → ESIResponse) (requests : List ESIRequest) (order : List Nat)
    (hperm : order.Perm (List.range requests.length))
    (hne : requests ≠ [])
    (hprep : ∀ r ∈ requests, r.prepared = true)
    (hok : ∀ r ∈ requests, (dispatch r).result = Except.ok (f r)) :
    issue dispatch order requests = Except.ok (requests.map f) := by
  cases requests with
  | nil => exact absurd rfl hne
  | cons r0 rest =>
    have hprep0 : r0.prepared = true := hprep r0 (List.mem_cons_self r0 rest)
    have htask : (List.range (r0 :: rest).length).map (taskResult dispatch (r0 :: rest)) =
        ((r0 :: rest).map f).map Except.ok := by
      apply List.ext_getElem
      · simp
      · intro i h1 h2
        have hi : i < (r0 :: rest).length := by simpa using h1
        simp only [List.getElem_map, List.getElem_range]
        rw [taskResult, List.getD_eq_getElem _ _ hi]
        exact hok _ (List.getElem_mem hi)
    simp only [issue]
    rw [if_neg (by simp [hprep0])]
    rw [issue_perm_slots dispatch (r0 :: rest) order hperm, collectSlots_map_some, htask]
    exact gatherResults_map_ok _

/-- A concrete per-request response used to instantiate the dispatch
oracle in witnesses. -/
def exDispatchResponse (r : ESIRequest) : ESIResponse :=
  { url := r.url, status := 200 }

/-- A concrete dispatch oracle: every request completes with its
exDispatchResponse and an empty trace. -/
def exDispatch (r : ESIRequest) : DispatchOutcome :=
  { result := Except.ok (exDispatchResponse r), effects := [] }

/-- Five concrete prepared requests. -/
def exFiveRequests : List ESIRequest :=
  [{ url := "u1", prepared := true }, { url := "u2", prepared := true },
   { url := "u3", prepared := true }, { url := "u4", prepared := true },
   { url := "u5", prepared := true }]

/-- A concrete transport: every request receives a 200 response at its
own URL. -/
def exNet (r : ESIRequest) : ClientResponse :=
  { status := 200, url := r.url }

/-- The dispatch oracle of the send-guarded model at a fixed world:
checker verdict true, empty conditional cache, exNet transport. -/
def exSendDispatch (r : ESIRequest) : DispatchOutcome :=
  issue_one_request_send true (fun _ => none) exNet r

/-- Witness for C1: five prepared requests whose sends complete in
reverse submission order still produce the five responses in submission
order. -/
theorem c1_issue_order_preserving_witness :
    issue exDispatch [4, 3, 2, 1, 0] exFiveRequests =
      Except.ok (exFiveRequests.map exDispatchResponse) :=
  c1_issue_order_preserving exDispatch exDispatchResponse exFiveRequests
    [4, 3, 2, 1, 0] (by decide) (by decide) (by decide) (fun _ _ => rfl)

/-- Counterexample for C1 as stated: on the empty list (a list of zero
prepared requests) Session.issue does not return a zero-element result
list; indexing requests[0] raises IndexError. -/
theorem c1_issue_empty_list_counterexample :
    issue exDispatch [] [] = Except.error IssueError.indexError := rfl

/-- C9 (amended): every input list containing a logical (unprepared)
request makes issue fail with the misuse ValueError, but the failure is
immediate only at the first position: (1) when the first element is
unprepared, issue fails immediately with the entry guard's ValueError,
whatever the dispatch behaviour is — before any request is dispatched;
(2) an unprepared request that is dispatched is rejected by the send
guard with the misuse error and no network effect; (3) a prepared
request passes the send guard and proceeds through the normal dispatch —
so when the unprepared request sits at a later position, the other
requests are dispatched and their sends attempted before the misuse
error surfaces from the gather. -/
theorem c9_issue_misuse_guards :
    (∀ (dispatch : ESIRequest → DispatchOutcome) (order : List Nat)
      (r0 : ESIRequest) (rest : List ESIRequest), r0.prepared = false →
      issue dispatch order (r0 :: rest) = Except.error IssueError.valueError) ∧
    (∀ (valid : Bool) (cache : String → Option ETagCacheEntry)
      (net : ESIRequest → ClientResponse) (request : ESIRequest),
      request.prepared = false →
      issue_one_request_send valid cache net request =
        { result := Except.error DispatchError.valueErrorUnpreparedSend
          effects := [] }) ∧
    (∀ (valid : Bool) (cache : String → Option ETagCacheEntry)
      (net : ESIRequest → ClientResponse) (request : ESIRequest),
      request.prepared = true →
      issue_one_request_send valid cache net request =
        issue_one_request valid cache (net request) request) := by
  refine ⟨?_, ?_, ?_⟩
  · intro dispatch order r0 rest h
    simp only [issue]
    rw [if_pos h]
  · intro valid cache net request h
    simp [issue_one_request_send, FakeResponseGenerator.ready, send, h]
  · intro valid cache net request h
    simp [issue_one_request_send, FakeResponseGenerator.ready, send, h]

/-- Witness for C9 (amended): an unprepared first element is rejected
immediately; a dispatched unprepared request trips the send guard with no
effects; a prepared request passes the guard into the normal dispatch. -/
theorem c9_issue_misuse_guards_witness :
    issue exDispatch [1, 0]
        [{ url := "u0", prepared := false }, { url := "u1", prepared := true }] =
      Except.error IssueError.valueError ∧
    issue_one_request_send true (fun _ => none) exNet { url := "u2" } =
      { result := Except.error DispatchError.valueErrorUnpreparedSend
        effects := [] } ∧
    issue_one_request_send true (fun _ => none) exNet { url := "u1", prepared := true } =
      issue_one_request true (fun _ => none) (exNet { url := "u1", prepared := true })
        { url := "u1", prepared := true } :=
  ⟨c9_issue_misuse_guards.1 exDispatch [1, 0] _ _ rfl,
   c9_issue_misuse_guards.2.1 true (fun _ => none) exNet { url := "u2" } rfl,
   c9_issue_misuse_guards.2.2 true (fun _ => none) exNet
     { url := "u1", prepared := true } rfl⟩

/-- Counterexample for C9 as stated: a prepared first request and an
unprepared second request. issue does fail with the misuse ValueError,
but it surfaces from the dispatched second task's send guard
(dispatchFailed valueErrorUnpreparedSend propagated by the gather), not
from the immediate pre-dispatch check (valueError) — and the first
request's dispatch performs its network send, so the failure is neither
immediate nor before any request is dispatched nor before any network
call is attempted. -/
theorem c9_issue_misuse_later_position_counterexample :
    issue exSendDispatch [0, 1]
        [{ url := "u1", prepared := true }, { url := "u2", prepared := false }] =
      Except.error (IssueError.dispatchFailed DispatchError.valueErrorUnpreparedSend) ∧
    (Except.error (IssueError.dispatchFailed DispatchError.valueErrorUnpreparedSend) :
        Except IssueError (List ESIResponse)) ≠
      Except.error IssueError.valueError ∧
    Effect.sent "u1" ∈ (exSendDispatch { url := "u1", prepared := true }).effects := by
  refine ⟨rfl, ?_, ?_⟩
  · simp
  · decide

/-- C2: for every dispatched request whose transport response has the 304
status and whose URL has no conditional-cache entry, issue_one_request
surfaces the fatal UnresolvedConditionalCacheMiss error (the
NotImplementedError raise of the source) for every validation verdict —
the strict/non-strict flag influences only that verdict — and returns no
synthesized or empty response: the only effect is the send. -/
theorem c2_dispatch_304_cache_miss_fatal (valid : Bool)
    (cache : String → Option ETagCacheEntry) (r : ClientResponse)
    (request : ESIRequest) (h304 : r.status = 304)
    (hmiss : cache request.url = none) :
    (issue_one_request valid cache r request).result =
      Except.error DispatchError.unresolvedConditionalCacheMiss ∧
    (issue_one_request valid cache r request).effects = [Effect.sent request.url] := by
  constructor <;>
    simp [issue_one_request, FakeResponseGenerator.ready, h304, hmiss]

/-- Witness for C2: a 304 transport response over an empty cache yields
the fatal error. -/
theorem c2_dispatch_304_cache_miss_fatal_witness :
    ({ status := 304 } : ClientResponse).status = 304 ∧
    (fun _ : String => (none : Option ETagCacheEntry)) "u" = none ∧
    (issue_one_request false (fun _ => none) { status := 304 } { url := "u" }).result =
      Except.error DispatchError.unresolvedConditionalCacheMiss :=
  ⟨rfl, rfl,
    (c2_dispatch_304_cache_miss_fatal false (fun _ => none) { status := 304 }
      { url := "u" } rfl rfl).1⟩

/-- C7: for every request dispatched over the network with a non-304
status whose transport resolved URL equals the request URL, the
conditional cache is written exactly once for that URL when the built
response is ok, and zero times when it is not ok — so no cache entry
originates from a non-successful response. -/
theorem c7_cache_write_iff_ok (valid : Bool) (cache : String → Option ETagCacheEntry)
    (r : ClientResponse) (request : ESIRequest)
    (hstatus : r.status ≠ 304) (hurl : r.url = request.url) :
    countCacheWrites (issue_one_request valid cache r request).effects request.url =
      if (build_response request r).ok then 1 else 0 := by
  have hrespurl : (build_response request r).url = request.url := hurl
  by_cases hok : (build_response request r).ok
  · simp [issue_one_request, FakeResponseGenerator.ready, hstatus, hok, countCacheWrites,
      cache_response, hrespurl]
  · simp [issue_one_request, FakeResponseGenerator.ready, hstatus, hok, countCacheWrites]

/-- Witness for C7: a 200 response at the request URL is cached exactly
once; evaluated, the count is 1. -/
theorem c7_cache_write_iff_ok_witness :
    ({ status := 200, url := "w" } : ClientResponse).status ≠ 304 ∧
    countCacheWrites
        (issue_one_request true (fun _ => none) { status := 200, url := "w" }
          { url := "w" }).effects "w" =
      (if (build_response { url := "w" } { status := 200, url := "w" }).ok then 1 else 0) ∧
    (build_response ({ url := "w" } : ESIRequest)
        ({ status := 200, url := "w" } : ClientResponse)).ok = true :=
  ⟨by decide,
    c7_cache_write_iff_ok true (fun _ => none) { status := 200, url := "w" }
      { url := "w" } (by decide) rfl,
    by decide⟩

/-- C10: FakeResponseGenerator.ready is identically false, so the
synthesize branch of issue_one_request is unreachable: for every
validation verdict, cache content and transport response, the request is
sent over the network (the trace records the send) and no synthesized
response ever appears in the trace. -/
theorem c10_synthesize_unreachable (valid : Bool)
    (cache : String → Option ETagCacheEntry) (r : ClientResponse)
    (request : ESIRequest) :
    FakeResponseGenerator.ready request = false ∧
    Effect.sent request.url ∈ (issue_one_request valid cache r request).effects ∧
    Effect.synthesized ∉ (issue_one_request valid cache r request).effects := by
  refine ⟨rfl, ?_, ?_⟩ <;>
  · by_cases h304 : r.status = 304
    · cases hcache : cache request.url <;>
        simp [issue_one_request, FakeResponseGenerator.ready, h304, hcache]
    · by_cases hok : (build_response request r).ok <;>
        simp [issue_one_request, FakeResponseGenerator.ready, h304, hok, cache_response]

/-- C4: with the request checker and the endpoint checker enabled, a
request whose endpoint health verdict is false is reported invalid with
the EndpointDown error — raised in strict mode, the False verdict
returned in non-strict mode — the blocked request is logged, and no
per-parameter check runs: the type_id checker is never invoked, so no
checker network call happens. -/
theorem c4_endpoint_down_short_circuit (endpointHealthy : String → Bool)
    (metadata_params : List (String × Bool)) (checkTypeId : Option Int → Bool)
    (raise_flag : Bool) (request : ESIRequest)
    (hdown : endpointHealthy request.endpoint = false) :
    checker_call true true endpointHealthy metadata_params checkTypeId raise_flag
        request =
      { result :=
          if raise_flag then Except.error (CheckError.endpointDown request.endpoint)
          else Except.ok false
        blockError := some (CheckError.endpointDown request.endpoint)
        typeIdCalled := none
        logged := true } := by
  cases raise_flag <;> simp [checker_call, check_request, hdown]

/-- Witness for C4: a request to an unhealthy endpoint in non-strict mode
is reported invalid with EndpointDown and the type_id checker untouched. -/
theorem c4_endpoint_down_short_circuit_witness :
    (fun _ : String => false) "/e" = false ∧
    checker_call true true (fun _ => false) [("type_id", true)] (fun _ => true) false
        { endpoint := "/e" } =
      { result := Except.ok false
        blockError := some (CheckError.endpointDown "/e")
        typeIdCalled := none
        logged := true } :=
  ⟨rfl, c4_endpoint_down_short_circuit (fun _ => false) [("type_id", true)]
    (fun _ => true) false { endpoint := "/e" } rfl⟩

/-- Counterexample for C8 as stated: a request carrying type_id = 10 in
the free-form keyword set and type_id = 20 in the structured-parameter
set resolves the checked value to 10 — the free-form keyword set, not the
structured-parameter set, takes precedence — and the type_id checker is
invoked with 10, never with 20. -/
theorem c8_precedence_counterexample :
    resolve_type_id
        { kwargs := [("type_id", some 10)], params := [("type_id", some 20)] } =
      some 10 ∧
    (checker_call true true (fun _ => true) [("type_id", true)] (fun _ => true) false
        { kwargs := [("type_id", some 10)], params := [("type_id", some 20)]
          }).typeIdCalled = some (some 10) := by
  constructor <;> rfl

/-- C8 (amended): the per-parameter check resolves type_id from the
free-form keyword set first and only falls back to the
structured-parameter set when the keyword set has no binding (free-form
takes precedence — the reverse of the claim); and when the endpoint
metadata marks type_id optional and the resolved value is absent, the
request is valid without the checker being invoked. -/
theorem c8_resolution_and_optional (endpoints_enabled : Bool)
    (endpointHealthy : String → Bool) (metadata_params : List (String × Bool))
    (checkTypeId : Option Int → Bool) (raise_flag : Bool) (request : ESIRequest) :
    (∀ v, request.kwargs.lookup "type_id" = some v → resolve_type_id request = v) ∧
    (request.kwargs.lookup "type_id" = none →
      ∀ v, request.params.lookup "type_id" = some v → resolve_type_id request = v) ∧
    ((endpoints_enabled = true → endpointHealthy request.endpoint = true) →
      metadata_params.lookup "type_id" = some false →
      resolve_type_id request = none →
      checker_call true endpoints_enabled endpointHealthy metadata_params checkTypeId
          raise_flag request =
        { result := Except.ok true, blockError := none, typeIdCalled := none,
          logged := false }) := by
  refine ⟨?_, ?_, ?_⟩
  · intro v hv
    simp [resolve_type_id, hv]
  · intro hk v hp
    simp [resolve_type_id, hk, hp]
  · intro hhealthy hmeta habs
    cases hE : endpoints_enabled
    · simp [checker_call, check_request, hE, hmeta, habs]
    · have hh : endpointHealthy request.endpoint = true := hhealthy (by rw [hE])
      simp [checker_call, check_request, hE, hh, hmeta, habs]

/-- Witness for C8 (amended): a request with conflicting bindings
resolves from the keyword set, and an optional absent type_id passes
without invoking the checker. -/
theorem c8_resolution_and_optional_witness :
    resolve_type_id { kwargs := [("type_id", some 5)], params := [("type_id", some 7)] } =
      some 5 ∧
    checker_call true true (fun _ => true) [("type_id", false)] (fun _ => true) false
        { url := "v" } =
      { result := Except.ok true, blockError := none, typeIdCalled := none,
        logged := false } := by
  constructor
  · exact (c8_resolution_and_optional true (fun _ => true) [] (fun _ => true) false
      { kwargs := [("type_id", some 5)], params := [("type_id", some 7)] }).1
      (some 5) rfl
  · exact (c8_resolution_and_optional true (fun _ => true) [("type_id", false)]
      (fun _ => true) false { url := "v" }).2.2 (fun _ => rfl) rfl rfl

theorem checkLoop_404_diverges :
    ∀ (fuel i : Nat) (v : Option Bool),
      checkLoop (fun _ => 404) (fun _ => none) fuel i false 3 v = none
  | 0, i, v => by
    simp [checkLoop]
  | fuel + 1, i, v => by
    rw [checkLoop]
    simpa using checkLoop_404_diverges fuel (i + 1) none

/-- C3 (code bug observed): the confirming remote lookup of check_type_id
does not accept non-502, non-200 statuses as final — only a 200 sets
success and only a 502 consumes an attempt — so for a reference-data-
accepted type_id whose remote endpoint persistently answers 404 the retry
loop never exits: no amount of fuel makes it terminate, contradicting the
claimed bound of 3 attempts. -/
theorem c3_check_type_id_404_nonterminating (fuel : Nat) :
    check_type_id [(587, true)] (fun _ => 404) (fun _ => none) fuel (some 587) =
      none := by
  have hrun : check_type_id [(587, true)] (fun _ => 404) (fun _ => none) fuel
      (some 587) = checkLoop (fun _ => 404) (fun _ => none) fuel 0 false 3 (some true) := by
    simp [check_type_id, List.lookup]
  rw [hrun]
  exact checkLoop_404_diverges fuel 0 (some true)

/-- Counterexample for C5 as stated: with an empty in-process copy (so
the call must refresh) and a failing remote fetch, the fetch exception
propagates out of the endpoint checker call instead of being suppressed. -/
theorem c5_refresh_failure_counterexample :
    (endpoint_checker_call ⟨none⟩ false 0 0 (Except.error "ConnectionError") "/r").1 =
      Except.error "ConnectionError" := rfl

/-- C5 (amended): when a call triggers a refresh and the remote fetch
fails, the previous in-process copy is left unchanged — the refresh makes
no partial update, so later callers still observe the stale-but-valid
data — but the exception propagates to the caller of the endpoint checker
rather than being swallowed. -/
theorem c5_refresh_failure_state_unchanged (stt : EndpointCheckerState)
    (fileExists : Bool) (mtime now : Int) (e : String) (endpoint : String)
    (hexp : fd_expired stt.status_parsed fileExists mtime now = true) :
    endpoint_checker_call stt fileExists mtime now (Except.error e) endpoint =
      (Except.error e, stt, true) := by
  simp [endpoint_checker_call, hexp]

/-- Witness for C5 (amended): a refresh over an empty copy with a failing
fetch propagates the error and leaves the copy empty. -/
theorem c5_refresh_failure_state_unchanged_witness :
    fd_expired (none : Option (List (String × Bool))) false 0 0 = true ∧
    endpoint_checker_call ⟨none⟩ false 0 0 (Except.error "boom") "/r" =
      (Except.error "boom", ⟨none⟩, true) :=
  ⟨rfl, c5_refresh_failure_state_unchanged ⟨none⟩ false 0 0 "boom" "/r" rfl⟩

/-- C6 (code bug observed): a non-empty in-process copy whose file was
written 120 seconds ago is reported not expired — fd_expired computes
mtime - now > 60, which no past modification time satisfies — so the call
performs no remote fetch (its fetch argument is never consulted) and the
refresh the claim describes for copies older than 60 seconds never
happens. -/
theorem c6_fd_expired_stale_copy_not_refreshed :
    fd_expired (some [("/r", true)]) true 880 1000 = false ∧
    endpoint_checker_call ⟨some [("/r", true)]⟩ true 880 1000
        (Except.error "unexpected fetch") "/r" =
      (Except.ok true, ⟨some [("/r", true)]⟩, false) := by
  constructor <;> rfl
